import Mathlib

/-!
Shallow embedding of the VIF hotplug plugging driver
(neutron/plugins/cisco/device_manager/plugging_drivers/vif_hotplug_plugging_driver.py).

External collaborators (registry client, compute attach client) are modelled as
function parameters describing their behaviour; each driver operation returns a
trace recording the external calls it made, the sleeps it performed, and the
error (if any) that propagated to the caller.
-/

namespace VIFHotPlug

/-- Error kinds of the surrounding system.  `portNotFound` and `registryError`
correspond to `n_exc.PortNotFound` and a generic `n_exc.NeutronException`;
`computeError` and `otherError` are arbitrary non-Neutron exceptions (the
compute clients fail with an unspecified kind). -/
inductive Err where
  | portNotFound
  | registryError
  | computeError
  | otherError
deriving DecidableEq, Repr

/-- Which error kinds are instances of `n_exc.NeutronException` (the class the
driver catches and retries on). -/
def isNeutronException : Err → Bool
  | Err.portNotFound => true
  | Err.registryError => true
  | Err.computeError => false
  | Err.otherError => false

/-- Failure modes of the registry's port-deletion operation, per the external
interface: `NotFound` when the port is already absent, otherwise a generic
registry error.  Both are NeutronExceptions. -/
inductive RegErr where
  | portNotFound
  | registryError
deriving DecidableEq, Repr

/-- Result of running a retry-wrapped operation: how many times the underlying
operation was invoked, the sleeps performed between invocations, and the final
outcome (an `error` outcome is an exception propagating to the caller). -/
structure RetryTrace (ε α : Type) where
  invocations : Nat
  sleeps : List Nat
  result : Except ε α

/-- The loop of `f_retry` inside the `retry` decorator.  Arguments mirror the
Python locals: remaining `mtries`, current `mdelay`, and `k` counts how many
invocations of the wrapped function happened before (so `op k` is the outcome
of the next invocation).  While `mtries > 1` an exception matching `retryable`
is caught, logged, slept on (`mdelay`), and the loop continues with
`mtries - 1` and `mdelay * backoff`; a non-matching exception propagates
immediately; once `mtries ≤ 1` the wrapped function is called with no
surrounding trap. -/
def f_retry {ε α : Type} (op : Nat → Except ε α) (retryable : ε → Bool)
    (backoff : Nat) : Nat → Nat → Nat → RetryTrace ε α
  | Nat.succ (Nat.succ m), mdelay, k =>
    match op k with
    | Except.ok a => ⟨1, [], Except.ok a⟩
    | Except.error e =>
      if retryable e then
        let t := f_retry op retryable backoff (Nat.succ m) (mdelay * backoff) (k + 1)
        ⟨t.invocations + 1, mdelay :: t.sleeps, t.result⟩
      else ⟨1, [], Except.error e⟩
  | 0, _, k => ⟨1, [], op k⟩
  | 1, _, k => ⟨1, [], op k⟩

/-- The `retry(ExceptionToCheck, tries, delay, backoff)` decorator applied to a
function whose successive invocations behave as `op 0, op 1, ...`. -/
def retry {ε α : Type} (retryable : ε → Bool) (tries delay backoff : Nat)
    (op : Nat → Except ε α) : RetryTrace ε α :=
  f_retry op retryable backoff tries delay 0

/-- Module-level constant of the source file. -/
def DELETION_ATTEMPTS : Nat := 4

/-- Module-level constant of the source file (unused by the decorator call,
which passes delay 1 explicitly). -/
def SECONDS_BETWEEN_DELETION_ATTEMPTS : Nat := 3

/-- An attribute that may be left as `ATTR_NOT_SPECIFIED` in a port spec. -/
inductive Attr (α : Type) where
  | notSpecified
  | val (a : α)
deriving DecidableEq, Repr

/-- A port record held by the registry.  `id` is optional because a record in a
teardown call may lack the identifier (`port_db.get('id') is None`). -/
structure Port where
  id : Option String
  network_id : String
  device_id : String
  device_owner : String
  tenant_id : String
deriving DecidableEq, Repr

/-- The `p_spec['port']` dictionary passed to the registry's `create_port`. -/
structure PortSpec where
  tenant_id : String
  admin_state_up : Bool
  name : String
  network_id : String
  mac_address : Attr String
  fixed_ips : Attr (List String)
  device_id : String
  device_owner : String
deriving DecidableEq, Repr

/-- The `mgmt_context` dictionary; only the `mgmt_nw_id` key is consulted.
`none` for the key models both an absent key and a `None` value. -/
structure MgmtContext where
  mgmt_nw_id : Option String
deriving DecidableEq, Repr

/-- The `{'mgmt_port': ..., 'ports': ...}` bundle returned by
`create_hosting_device_resources`. -/
structure Bundle where
  mgmt_port : Option Port
  ports : List Port
deriving DecidableEq, Repr

/-- Trace of one `delete_hosting_device_resources` call: how many times the
registry's `delete_port` was invoked, the sleeps performed between attempts,
and the error (if any) that propagated to the caller. -/
structure DeleteTrace where
  delete_port_calls : Nat
  sleeps : List Nat
  raised : Option Err
deriving DecidableEq, Repr

/-- Body of `_delete_resource_port` before decoration: calls the registry's
`delete_port` (whose outcome on the k-th overall invocation is `delete_port k`),
catching `PortNotFound` and logging it as a warning; any other exception
escapes the body.  -/
def delete_resource_port_body (delete_port : Nat → Except RegErr Unit)
    (k : Nat) : Except Err Unit :=
  match delete_port k with
  | Except.ok _ => Except.ok ()
  | Except.error RegErr.portNotFound => Except.ok ()
  | Except.error RegErr.registryError => Except.error Err.registryError

/-- `_delete_resource_port`, i.e. the body wrapped by
`@retry(n_exc.NeutronException, DELETION_ATTEMPTS, 1)` (backoff defaults
to 2). -/
def delete_resource_port (delete_port : Nat → Except RegErr Unit) :
    RetryTrace Err Unit :=
  retry isNeutronException DELETION_ATTEMPTS 1 2
    (delete_resource_port_body delete_port)

/-- `delete_hosting_device_resources`: a no-op when `mgmt_port` is `None`;
otherwise runs the retry-wrapped `_delete_resource_port` and catches any
`NeutronException` it lets escape (logging "Skipping it"); a non-Neutron
exception would propagate. -/
def delete_hosting_device_resources (delete_port : Nat → Except RegErr Unit)
    (mgmt_port : Option Port) : DeleteTrace :=
  match mgmt_port with
  | none => ⟨0, [], none⟩
  | some _p =>
    let t := delete_resource_port delete_port
    match t.result with
    | Except.ok _ => ⟨t.invocations, t.sleeps, none⟩
    | Except.error e =>
      if isNeutronException e then ⟨t.invocations, t.sleeps, none⟩
      else ⟨t.invocations, t.sleeps, some e⟩

/-- Trace of one `create_hosting_device_resources` call: the specs passed to
the registry's `create_port`, the `mgmt_port` argument of each cleanup call to
`delete_hosting_device_resources`, the trace of that cleanup (registry deletes
issued on the rollback path), and the returned bundle. -/
structure CreateTrace where
  create_port_calls : List PortSpec
  cleanup_args : List (Option Port)
  cleanup_trace : DeleteTrace
  bundle : Bundle
deriving DecidableEq, Repr

/-- The port spec built for the management interface. -/
def mgmt_p_spec (tenant_id mgmt_nw_id complementary_id : String) : PortSpec :=
  { tenant_id := tenant_id
    admin_state_up := true
    name := "mgmt"
    network_id := mgmt_nw_id
    mac_address := Attr.notSpecified
    fixed_ips := Attr.notSpecified
    device_id := ""
    device_owner := complementary_id }

/-- `create_hosting_device_resources`.  The guard mirrors Python truthiness of
`mgmt_context and mgmt_context.get('mgmt_nw_id') and tenant_id`.  On a
registry creation failure (a NeutronException) the local `mgmt_port` is still
`None` — the assignment never happened — so cleanup receives `None`, and the
call returns `{'mgmt_port': None, 'ports': []}`. -/
def create_hosting_device_resources
    (create_port : PortSpec → Except RegErr Port)
    (delete_port : Nat → Except RegErr Unit)
    (complementary_id tenant_id : String)
    (mgmt_context : Option MgmtContext) : CreateTrace :=
  match mgmt_context with
  | some { mgmt_nw_id := some nw } =>
    if nw != "" && tenant_id != "" then
      let p_spec := mgmt_p_spec tenant_id nw complementary_id
      match create_port p_spec with
      | Except.ok p =>
        ⟨[p_spec], [], ⟨0, [], none⟩, ⟨some p, []⟩⟩
      | Except.error _e =>
        let d := delete_hosting_device_resources delete_port none
        ⟨[p_spec], [none], d, ⟨none, []⟩⟩
    else ⟨[], [], ⟨0, [], none⟩, ⟨none, []⟩⟩
  | _ => ⟨[], [], ⟨0, [], none⟩, ⟨none, []⟩⟩

/-- The or-filter of the registry query in `get_hosting_device_resources`:
`Port.device_id == id  OR  Port.device_owner == complementary_id`. -/
def port_filter (id complementary_id : String) (p : Port) : Bool :=
  p.device_id == id || p.device_owner == complementary_id

/-- The `for port in query` loop: skip (log and ignore) any port not on the
management network, otherwise take it and break. -/
def ghdr_loop (mgmt_nw_id : String) : List Port → Option Port
  | [] => none
  | p :: rest =>
    if p.network_id != mgmt_nw_id then ghdr_loop mgmt_nw_id rest
    else some p

/-- The `{'mgmt_port': ...}` dictionary returned by
`get_hosting_device_resources`. -/
structure GetResult where
  mgmt_port : Option Port
deriving DecidableEq, Repr

/-- `get_hosting_device_resources`: `ports` is the registry's full port table
in enumeration order; the query filters it by `port_filter`, then the loop
selects the first match on the management network. -/
def get_hosting_device_resources (ports : List Port)
    (id complementary_id tenant_id mgmt_nw_id : String) : GetResult :=
  ⟨ghdr_loop mgmt_nw_id (ports.filter (port_filter id complementary_id))⟩

/-- The caller-supplied execution context: tenant scope plus privilege flag. -/
structure Context where
  tenant_id : String
  is_admin : Bool
deriving DecidableEq, Repr

/-- `context.elevated()`: the administrative-privilege variant of a context. -/
def Context.elevated (c : Context) : Context := { c with is_admin := true }

/-- The `{'port': {...}}` update dictionary passed to `update_port`. -/
structure PortUpdate where
  device_owner : String
  device_id : String
  tenant_id : String
deriving DecidableEq, Repr

/-- One invocation of the registry's `update_port`. -/
structure UpdateCall where
  ctx : Context
  port_id : Option String
  upd : PortUpdate
deriving DecidableEq, Repr

/-- One invocation of the compute client's `interface_attach`. -/
structure AttachCall where
  hosting_device_id : String
  port_id : Option String
deriving DecidableEq, Repr

/-- Trace of one `setup_logical_port_connectivity` call. -/
structure SetupTrace where
  update_calls : List UpdateCall
  attach_calls : List AttachCall
  raised : Option Err
deriving DecidableEq, Repr

/-- `setup_logical_port_connectivity`: updates the port with cleared
`device_owner`/`device_id` and the L3 admin tenant, using the elevated
context — this call is NOT inside the try block, so its errors propagate —
then invokes `interface_attach` inside a try whose `except Exception` swallows
every attach error (logging it). -/
def setup_logical_port_connectivity
    (update_port : Context → Option String → PortUpdate → Except Err Unit)
    (interface_attach : String → Option String → Except Err Unit)
    (l3_tenant_id : String) (context : Context) (port_db : Port)
    (hosting_device_id : String) : SetupTrace :=
  let upd : PortUpdate := ⟨"", "", l3_tenant_id⟩
  let uc : UpdateCall := ⟨context.elevated, port_db.id, upd⟩
  match update_port context.elevated port_db.id upd with
  | Except.error e => ⟨[uc], [], some e⟩
  | Except.ok _ =>
    match interface_attach hosting_device_id port_db.id with
    | Except.ok _ => ⟨[uc], [⟨hosting_device_id, port_db.id⟩], none⟩
    | Except.error _e => ⟨[uc], [⟨hosting_device_id, port_db.id⟩], none⟩

/-- One invocation of the compute client's `interface_detach`. -/
structure DetachCall where
  hosting_device_id : String
  port_id : String
deriving DecidableEq, Repr

/-- Trace of one `teardown_logical_port_connectivity` call. -/
structure TeardownTrace where
  detach_calls : List DetachCall
  raised : Option Err
deriving DecidableEq, Repr

/-- `teardown_logical_port_connectivity`: guards against a `None` port record
or a missing `id` (logs and returns without action); otherwise invokes
`interface_detach` inside a try whose `except Exception` swallows every
error. -/
def teardown_logical_port_connectivity
    (interface_detach : String → String → Except Err Unit)
    (port_db : Option Port) (hosting_device_id : String) : TeardownTrace :=
  match port_db with
  | none => ⟨[], none⟩
  | some p =>
    match p.id with
    | none => ⟨[], none⟩
    | some pid =>
      match interface_detach hosting_device_id pid with
      | Except.ok _ => ⟨[⟨hosting_device_id, pid⟩], none⟩
      | Except.error _e => ⟨[⟨hosting_device_id, pid⟩], none⟩

/-- `allocate_hosting_port`: reuses the logical port's own identifier and
reports no VLAN. -/
def allocate_hosting_port (port_db : Port) :
    Option String × Option Nat :=
  (port_db.id, none)

theorem f_retry_one {ε α : Type} (op : Nat → Except ε α) (r : ε → Bool)
    (b d k : Nat) : f_retry op r b 1 d k = ⟨1, [], op k⟩ := rfl

theorem f_retry_ok {ε α : Type} (op : Nat → Except ε α) (r : ε → Bool)
    (b m d k : Nat) (a : α) (h : op k = Except.ok a) :
    f_retry op r b (m + 2) d k = ⟨1, [], Except.ok a⟩ := by
  simp [f_retry, h]

theorem f_retry_retryable {ε α : Type} (op : Nat → Except ε α) (r : ε → Bool)
    (b m d k : Nat) (e : ε) (h : op k = Except.error e) (hr : r e = true) :
    f_retry op r b (m + 2) d k =
      ⟨(f_retry op r b (m + 1) (d * b) (k + 1)).invocations + 1,
        d :: (f_retry op r b (m + 1) (d * b) (k + 1)).sleeps,
        (f_retry op r b (m + 1) (d * b) (k + 1)).result⟩ := by
  simp [f_retry, h, hr]

theorem f_retry_nonretryable {ε α : Type} (op : Nat → Except ε α) (r : ε → Bool)
    (b m d k : Nat) (e : ε) (h : op k = Except.error e) (hr : r e = false) :
    f_retry op r b (m + 2) d k = ⟨1, [], Except.error e⟩ := by
  simp [f_retry, h, hr]

theorem range_map_pow_cons (j d b : Nat) :
    (List.range (j + 1)).map (fun i => d * b ^ i)
      = d :: (List.range j).map (fun i => d * b * b ^ i) := by
  rw [List.range_succ_eq_map, List.map_cons, List.map_map]
  have h1 : d * b ^ 0 = d := by simp
  have h2 : ((fun i => d * b ^ i) ∘ Nat.succ) = fun i => d * b * b ^ i := by
    funext i
    simp only [Function.comp, pow_succ]
    ring
  rw [h1, h2]

/-- If every invocation of the wrapped operation fails retryably, the loop
makes `m + 1` invocations in total, sleeps the exponentially growing delays,
and the final (untrapped) outcome is that of the last invocation. -/
theorem f_retry_all_fail {ε α : Type} (op : Nat → Except ε α) (r : ε → Bool)
    (b : Nat) (hfail : ∀ n, ∃ e, op n = Except.error e ∧ r e = true) :
    ∀ (m d k : Nat), f_retry op r b (m + 1) d k
      = ⟨m + 1, (List.range m).map (fun i => d * b ^ i), op (k + m)⟩ := by
  intro m
  induction m with
  | zero => intro d k; rfl
  | succ m ih =>
    intro d k
    obtain ⟨e, he, hr⟩ := hfail k
    have hidx : m + 1 + 1 = m + 2 := rfl
    rw [hidx, f_retry_retryable op r b m d k e he hr, ih (d * b) (k + 1)]
    simp only [RetryTrace.mk.injEq, true_and]
    refine ⟨?_, ?_⟩
    · rw [range_map_pow_cons]
    · congr 1
      omega

/-- If the first `j` invocations fail retryably and invocation `j` fails with
a non-retryable error, that error propagates at once: `j + 1` invocations in
total, only the `j` earlier sleeps, and the error as outcome. -/
theorem f_retry_prefix_fail {ε α : Type} (op : Nat → Except ε α) (r : ε → Bool)
    (b : Nat) (e : ε) (hr : r e = false) :
    ∀ (j m d k : Nat), j ≤ m →
      (∀ n, n < j → ∃ e', op (k + n) = Except.error e' ∧ r e' = true) →
      op (k + j) = Except.error e →
      f_retry op r b (m + 1) d k
        = ⟨j + 1, (List.range j).map (fun i => d * b ^ i), Except.error e⟩ := by
  intro j
  induction j with
  | zero =>
    intro m d k _ _ hj
    rw [Nat.add_zero] at hj
    cases m with
    | zero => simp [f_retry_one, hj]
    | succ m' =>
      have hidx : m' + 1 + 1 = m' + 2 := rfl
      rw [hidx, f_retry_nonretryable op r b m' d k e hj hr]
      simp
  | succ j ih =>
    intro m d k hjm hpre hj
    cases m with
    | zero => omega
    | succ m' =>
      obtain ⟨e0, he0, hr0⟩ := hpre 0 (Nat.succ_pos j)
      rw [Nat.add_zero] at he0
      have hidx : m' + 1 + 1 = m' + 2 := rfl
      rw [hidx, f_retry_retryable op r b m' d k e0 he0 hr0]
      have hpre' : ∀ n, n < j →
          ∃ e', op (k + 1 + n) = Except.error e' ∧ r e' = true := by
        intro n hn
        obtain ⟨e', h1, h2⟩ := hpre (n + 1) (by omega)
        refine ⟨e', ?_, h2⟩
        rw [show k + 1 + n = k + (n + 1) from by omega]
        exact h1
      have hj' : op (k + 1 + j) = Except.error e := by
        rw [show k + 1 + j = k + (j + 1) from by omega]
        exact hj
      rw [ih m' (d * b) (k + 1) (by omega) hpre' hj']
      simp only [RetryTrace.mk.injEq, true_and, and_true]
      rw [range_map_pow_cons]

/-- The outcome of a retry-wrapped run is always the outcome of some
invocation of the wrapped operation. -/
theorem f_retry_result_from_op {ε α : Type} (op : Nat → Except ε α)
    (r : ε → Bool) (b : Nat) :
    ∀ (m d k : Nat), ∃ j, (f_retry op r b m d k).result = op j := by
  intro m
  induction m with
  | zero => intro d k; exact ⟨k, rfl⟩
  | succ m ih =>
    intro d k
    cases m with
    | zero => exact ⟨k, rfl⟩
    | succ m' =>
      have hidx : m' + 1 + 1 = m' + 2 := rfl
      cases hop : op k with
      | ok a =>
        refine ⟨k, ?_⟩
        rw [hidx, f_retry_ok op r b m' d k a hop, hop]
      | error e =>
        cases hre : r e with
        | true =>
          obtain ⟨j, hj⟩ := ih (d * b) (k + 1)
          refine ⟨j, ?_⟩
          rw [hidx, f_retry_retryable op r b m' d k e hop hre]
          exact hj
        | false =>
          refine ⟨k, ?_⟩
          rw [hidx, f_retry_nonretryable op r b m' d k e hop hre, hop]

/-- A first-attempt success ends the retry loop at once, for any attempt
budget. -/
theorem f_retry_first_ok {ε α : Type} (op : Nat → Except ε α) (r : ε → Bool)
    (b m d k : Nat) (a : α) (h : op k = Except.ok a) :
    f_retry op r b m d k = ⟨1, [], Except.ok a⟩ := by
  cases m with
  | zero => simp [f_retry, h]
  | succ m' =>
    cases m' with
    | zero => simp [f_retry_one, h]
    | succ m'' => exact f_retry_ok op r b m'' d k a h

/-- The decorated delete body only lets a generic registry error escape:
`PortNotFound` is caught inside the body itself. -/
theorem delete_body_error_is_registry (b : Nat → Except RegErr Unit) (k : Nat)
    (e : Err) (h : delete_resource_port_body b k = Except.error e) :
    e = Err.registryError := by
  unfold delete_resource_port_body at h
  cases hb : b k with
  | ok u => rw [hb] at h; exact absurd h (by simp)
  | error re =>
    cases re with
    | portNotFound => rw [hb] at h; exact absurd h (by simp)
    | registryError =>
      rw [hb] at h
      injection h with h'
      exact h'.symm

/-- `delete_hosting_device_resources` lets no error reach its caller: the only
error kind escaping the retry-wrapped body is a NeutronException, which the
outer handler catches. -/
theorem delete_hdr_raised_none (b : Nat → Except RegErr Unit)
    (mgmt_port : Option Port) :
    (delete_hosting_device_resources b mgmt_port).raised = none := by
  cases mgmt_port with
  | none => rfl
  | some p =>
    simp only [delete_hosting_device_resources]
    cases hres : (delete_resource_port b).result with
    | ok u => simp
    | error e =>
      obtain ⟨j, hj⟩ := f_retry_result_from_op (delete_resource_port_body b)
        isNeutronException 2 DELETION_ATTEMPTS 1 0
      have hj' : (delete_resource_port b).result = delete_resource_port_body b j := hj
      rw [hres] at hj'
      have he : e = Err.registryError := delete_body_error_is_registry b j e hj'.symm
      subst he
      simp [isNeutronException]

/-- Full trace of `setup_logical_port_connectivity` as a function of the
update outcome: the reset update is always issued; the attach is issued only
after a successful update; only an update error is re-raised. -/
theorem setup_characterize
    (update_port : Context → Option String → PortUpdate → Except Err Unit)
    (interface_attach : String → Option String → Except Err Unit)
    (l3 : String) (ctx : Context) (p : Port) (hd : String) :
    setup_logical_port_connectivity update_port interface_attach l3 ctx p hd
      = match update_port (Context.elevated ctx) p.id ⟨"", "", l3⟩ with
        | Except.error e => ⟨[⟨Context.elevated ctx, p.id, ⟨"", "", l3⟩⟩], [], some e⟩
        | Except.ok _ =>
          ⟨[⟨Context.elevated ctx, p.id, ⟨"", "", l3⟩⟩], [⟨hd, p.id⟩], none⟩ := by
  cases hu : update_port (Context.elevated ctx) p.id ⟨"", "", l3⟩ with
  | error e => simp [setup_logical_port_connectivity, hu]
  | ok u =>
    cases ha : interface_attach hd p.id with
    | ok v => simp [setup_logical_port_connectivity, hu, ha]
    | error e2 => simp [setup_logical_port_connectivity, hu, ha]

/-- The filter-then-scan of `get_hosting_device_resources` picks exactly the
first port satisfying the or-filter and lying on the management network. -/
theorem ghdr_loop_filter (id complementary_id mgmt_nw_id : String) :
    ∀ l : List Port,
      ghdr_loop mgmt_nw_id (l.filter (port_filter id complementary_id))
        = l.find? (fun p =>
            port_filter id complementary_id p && (p.network_id == mgmt_nw_id)) := by
  intro l
  induction l with
  | nil => rfl
  | cons p rest ih =>
    cases hf : port_filter id complementary_id p with
    | false =>
      have hpred : (port_filter id complementary_id p
          && (p.network_id == mgmt_nw_id)) = false := by simp [hf]
      simp [List.filter_cons, hf, List.find?_cons, hpred, ih]
    | true =>
      cases hn : p.network_id == mgmt_nw_id with
      | false =>
        have hpred : (port_filter id complementary_id p
            && (p.network_id == mgmt_nw_id)) = false := by simp [hn]
        simp [List.filter_cons, hf, ghdr_loop, bne, hn, List.find?_cons, hpred, ih]
      | true =>
        have hpred : (port_filter id complementary_id p
            && (p.network_id == mgmt_nw_id)) = true := by simp [hf, hn]
        simp [List.filter_cons, hf, ghdr_loop, bne, hn, List.find?_cons, hpred]

/-- C1 (counterexample): the ownership-reset port update of
`setup_logical_port_connectivity` is not inside the try block, so when the
registry's update fails the call does NOT return normally — the error
propagates to the caller, refuting "any error raised by either of its two
steps is logged and not re-raised". -/
theorem C1_counterexample :
    (setup_logical_port_connectivity
        (fun _ _ _ => Except.error Err.registryError)
        (fun _ _ => Except.ok ())
        "L3AdminTenant" ⟨"tenant1", false⟩
        ⟨some "p1", "net1", "old-dev", "old-owner", "tenant1"⟩ "hd1").raised
      = some Err.registryError := rfl

/-- C1 (amended): errors from the compute-side attach step are swallowed —
the call returns normally whatever the attach client does — but an error
raised by the ownership-reset port update is not trapped and propagates to
the caller. -/
theorem C1_setup_swallows_only_attach_errors
    (u_ok u_err : Context → Option String → PortUpdate → Except Err Unit)
    (att att2 : String → Option String → Except Err Unit)
    (l3 : String) (ctx : Context) (p : Port) (hd : String) (e : Err)
    (hok : u_ok (Context.elevated ctx) p.id ⟨"", "", l3⟩ = Except.ok ())
    (herr : u_err (Context.elevated ctx) p.id ⟨"", "", l3⟩ = Except.error e) :
    (setup_logical_port_connectivity u_ok att l3 ctx p hd).raised = none
    ∧ (setup_logical_port_connectivity u_err att2 l3 ctx p hd).raised = some e := by
  constructor
  · rw [setup_characterize, hok]
  · rw [setup_characterize, herr]

/-- C1 (witness): with a succeeding update and a failing attach the call
returns normally; with a failing update the error escapes. -/
theorem C1_witness :
    (setup_logical_port_connectivity (fun _ _ _ => Except.ok ())
        (fun _ _ => Except.error Err.computeError) "adm" ⟨"t1", false⟩
        ⟨some "p1", "n1", "", "", "t1"⟩ "hd1").raised = none
    ∧ (setup_logical_port_connectivity (fun _ _ _ => Except.error Err.otherError)
        (fun _ _ => Except.ok ()) "adm" ⟨"t1", false⟩
        ⟨some "p1", "n1", "", "", "t1"⟩ "hd1").raised = some Err.otherError :=
  C1_setup_swallows_only_attach_errors
    (fun _ _ _ => Except.ok ()) (fun _ _ _ => Except.error Err.otherError)
    (fun _ _ => Except.error Err.computeError) (fun _ _ => Except.ok ())
    "adm" ⟨"t1", false⟩ ⟨some "p1", "n1", "", "", "t1"⟩ "hd1" Err.otherError
    rfl rfl

/-- C2: `delete_hosting_device_resources` never raises to its caller (for any
registry delete behaviour and any port argument); a not-found outcome on the
first attempt completes the call normally after a single underlying delete
invocation (so two successive deletions of the same port id both succeed);
and when every attempt fails with a retryable registry error the underlying
delete is invoked exactly 4 times, the sleeps between attempts are 1s, 2s and
4s, and the call still returns normally. -/
theorem C2_delete_never_raises (b b1 b2 : Nat → Except RegErr Unit)
    (p : Port) (mgmt_port : Option Port)
    (h1 : b1 0 = Except.error RegErr.portNotFound)
    (h2 : ∀ k, b2 k = Except.error RegErr.registryError) :
    (delete_hosting_device_resources b mgmt_port).raised = none
    ∧ (delete_hosting_device_resources b1 (some p)).raised = none
    ∧ (delete_hosting_device_resources b1 (some p)).delete_port_calls = 1
    ∧ (delete_hosting_device_resources b2 (some p)).raised = none
    ∧ (delete_hosting_device_resources b2 (some p)).delete_port_calls = 4
    ∧ (delete_hosting_device_resources b2 (some p)).sleeps = [1, 2, 4] := by
  have hbody1 : delete_resource_port_body b1 0 = Except.ok () := by
    unfold delete_resource_port_body
    rw [h1]
  have hret1 : delete_resource_port b1 = ⟨1, [], Except.ok ()⟩ :=
    f_retry_first_ok (delete_resource_port_body b1) isNeutronException 2
      DELETION_ATTEMPTS 1 0 () hbody1
  have hb2body : ∀ k, delete_resource_port_body b2 k
      = Except.error Err.registryError := by
    intro k
    unfold delete_resource_port_body
    rw [h2 k]
  have hfail : ∀ n, ∃ e, delete_resource_port_body b2 n = Except.error e
      ∧ isNeutronException e = true :=
    fun n => ⟨Err.registryError, hb2body n, rfl⟩
  have hret2 : delete_resource_port b2
      = ⟨3 + 1, (List.range 3).map (fun i => 1 * 2 ^ i),
          delete_resource_port_body b2 (0 + 3)⟩ :=
    f_retry_all_fail (delete_resource_port_body b2) isNeutronException 2 hfail 3 1 0
  refine ⟨delete_hdr_raised_none b mgmt_port, delete_hdr_raised_none b1 (some p),
    ?_, delete_hdr_raised_none b2 (some p), ?_, ?_⟩
  · simp [delete_hosting_device_resources, hret1]
  · simp [delete_hosting_device_resources, hret2, hb2body, isNeutronException]
  · simp only [delete_hosting_device_resources, hret2, hb2body, isNeutronException]
    simp
    decide

/-- C2 (witness): concrete behaviours — a registry whose delete reports
not-found at once, and one failing with a generic registry error forever. -/
theorem C2_witness :
    (delete_hosting_device_resources (fun _ => Except.ok ()) none).raised = none
    ∧ (delete_hosting_device_resources (fun _ => Except.error RegErr.portNotFound)
        (some ⟨some "p1", "mgmt", "", "", "t1"⟩)).raised = none
    ∧ (delete_hosting_device_resources (fun _ => Except.error RegErr.portNotFound)
        (some ⟨some "p1", "mgmt", "", "", "t1"⟩)).delete_port_calls = 1
    ∧ (delete_hosting_device_resources (fun _ => Except.error RegErr.registryError)
        (some ⟨some "p1", "mgmt", "", "", "t1"⟩)).raised = none
    ∧ (delete_hosting_device_resources (fun _ => Except.error RegErr.registryError)
        (some ⟨some "p1", "mgmt", "", "", "t1"⟩)).delete_port_calls = 4
    ∧ (delete_hosting_device_resources (fun _ => Except.error RegErr.registryError)
        (some ⟨some "p1", "mgmt", "", "", "t1"⟩)).sleeps = [1, 2, 4] :=
  C2_delete_never_raises (fun _ => Except.ok ())
    (fun _ => Except.error RegErr.portNotFound)
    (fun _ => Except.error RegErr.registryError)
    ⟨some "p1", "mgmt", "", "", "t1"⟩ none rfl (fun _ => rfl)

/-- C3 (counterexample): with `tries = 0` the wrapped operation is still
invoked once (the final untrapped call), not zero times, even though every
invocation fails retryably — so "invoked exactly `tries` times" fails for
`tries = 0`. -/
theorem C3_counterexample :
    (retry (fun _ => true) 0 5 2
        (fun _ => (Except.error 0 : Except Nat Unit))).invocations = 1
    ∧ (retry (fun _ => true) 0 5 2
        (fun _ => (Except.error 0 : Except Nat Unit))).result = Except.error 0 :=
  ⟨rfl, rfl⟩

/-- C3 (amended): for `tries ≥ 1`, if the operation fails with a retryable
error on every invocation, it is invoked exactly `tries` times, the sleeps
between consecutive invocations are `delay, delay*backoff, delay*backoff^2,
...`, and the outcome of the call is the (untrapped) outcome of the final
invocation — an error that propagates to the caller. -/
theorem C3_retry_exhaustion {ε α : Type} (op : Nat → Except ε α)
    (retryable : ε → Bool) (tries delay backoff : Nat) (htries : 1 ≤ tries)
    (hfail : ∀ k, ∃ e, op k = Except.error e ∧ retryable e = true) :
    (retry retryable tries delay backoff op).invocations = tries
    ∧ (retry retryable tries delay backoff op).sleeps
        = (List.range (tries - 1)).map (fun i => delay * backoff ^ i)
    ∧ (retry retryable tries delay backoff op).result = op (tries - 1)
    ∧ ∃ e, (retry retryable tries delay backoff op).result = Except.error e := by
  cases tries with
  | zero => omega
  | succ t =>
    have h := f_retry_all_fail op retryable backoff hfail t delay 0
    unfold retry
    rw [h]
    obtain ⟨e, he, _⟩ := hfail t
    refine ⟨rfl, by simp, by simp, ⟨e, by simp [he]⟩⟩

/-- C3 (witness): four attempts at delay 1, backoff 2 — invoked 4 times,
sleeps 1, 2, 4, final error propagated. -/
theorem C3_witness :
    (retry (fun _ => true) 4 1 2
        (fun _ => (Except.error 0 : Except Nat Unit))).invocations = 4
    ∧ (retry (fun _ => true) 4 1 2
        (fun _ => (Except.error 0 : Except Nat Unit))).sleeps = [1, 2, 4]
    ∧ (retry (fun _ => true) 4 1 2
        (fun _ => (Except.error 0 : Except Nat Unit))).result = Except.error 0 := by
  obtain ⟨g1, g2, g3, _⟩ := C3_retry_exhaustion
    (fun _ => (Except.error 0 : Except Nat Unit)) (fun _ => true) 4 1 2
    (by omega) (fun k => ⟨0, rfl, rfl⟩)
  refine ⟨g1, ?_, ?_⟩
  · rw [g2]
    decide
  · rw [g3]

/-- C4: when the registry's port creation fails, the cleanup
`delete_hosting_device_resources` is invoked exactly once, with the port
reference available at failure time (the still-unassigned local, i.e. null),
and the returned bundle has a null management port. -/
theorem C4_rollback_on_create_failure
    (create_port : PortSpec → Except RegErr Port)
    (delete_port : Nat → Except RegErr Unit)
    (complementary_id tenant_id nw : String) (e : RegErr)
    (hnw : nw ≠ "") (ht : tenant_id ≠ "")
    (hfail : create_port (mgmt_p_spec tenant_id nw complementary_id)
      = Except.error e) :
    (create_hosting_device_resources create_port delete_port complementary_id
        tenant_id (some ⟨some nw⟩)).cleanup_args = [none]
    ∧ (create_hosting_device_resources create_port delete_port complementary_id
        tenant_id (some ⟨some nw⟩)).bundle.mgmt_port = none := by
  have hguard : (nw != "" && tenant_id != "") = true := by
    simp [hnw, ht]
  constructor
  · simp [create_hosting_device_resources, hguard, hfail]
  · simp [create_hosting_device_resources, hguard, hfail]

/-- C4 (witness): a concrete always-failing registry creation triggers one
cleanup call with a null port and a null management port in the bundle. -/
theorem C4_witness :
    (create_hosting_device_resources (fun _ => Except.error RegErr.registryError)
        (fun _ => Except.ok ()) "comp1" "t1" (some ⟨some "mgmt-net"⟩)).cleanup_args
      = [none]
    ∧ (create_hosting_device_resources (fun _ => Except.error RegErr.registryError)
        (fun _ => Except.ok ()) "comp1" "t1"
        (some ⟨some "mgmt-net"⟩)).bundle.mgmt_port = none :=
  C4_rollback_on_create_failure (fun _ => Except.error RegErr.registryError)
    (fun _ => Except.ok ()) "comp1" "t1" "mgmt-net" RegErr.registryError
    (by decide) (by decide) rfl

/-- C5: `get_hosting_device_resources` selects as management port exactly the
first port, in registry enumeration order, that satisfies the dual-key filter
(device id equals the hosting device id, or device owner equals the
complementary id) and lies on the management network; matches on other
networks are skipped, and when no port qualifies the result is null. -/
theorem C5_first_qualifying_port (ports : List Port)
    (id complementary_id tenant_id mgmt_nw_id : String) :
    (get_hosting_device_resources ports id complementary_id tenant_id
        mgmt_nw_id).mgmt_port
      = ports.find? (fun p =>
          port_filter id complementary_id p && (p.network_id == mgmt_nw_id)) :=
  ghdr_loop_filter id complementary_id mgmt_nw_id ports

/-- C6: before the compute-side attach is invoked, the port is updated — via
the elevated variant of the supplied context — with empty device owner, empty
device id and the administrative tenant; the attach is then invoked with
exactly the hosting device id and port id supplied. -/
theorem C6_ownership_reset_before_attach
    (update_port : Context → Option String → PortUpdate → Except Err Unit)
    (interface_attach : String → Option String → Except Err Unit)
    (l3 : String) (ctx : Context) (p : Port) (hd : String)
    (hok : update_port (Context.elevated ctx) p.id ⟨"", "", l3⟩ = Except.ok ()) :
    (setup_logical_port_connectivity update_port interface_attach l3 ctx p
        hd).update_calls = [⟨Context.elevated ctx, p.id, ⟨"", "", l3⟩⟩]
    ∧ (setup_logical_port_connectivity update_port interface_attach l3 ctx p
        hd).attach_calls = [⟨hd, p.id⟩] := by
  rw [setup_characterize, hok]
  exact ⟨rfl, rfl⟩

/-- C6 (witness): concrete clients recording the reset update and the attach
with the exact supplied identifiers. -/
theorem C6_witness :
    (setup_logical_port_connectivity (fun _ _ _ => Except.ok ())
        (fun _ _ => Except.ok ()) "L3Admin" ⟨"t9", false⟩
        ⟨some "p7", "n1", "dev", "own", "t9"⟩ "hd3").update_calls
      = [⟨⟨"t9", true⟩, some "p7", ⟨"", "", "L3Admin"⟩⟩]
    ∧ (setup_logical_port_connectivity (fun _ _ _ => Except.ok ())
        (fun _ _ => Except.ok ()) "L3Admin" ⟨"t9", false⟩
        ⟨some "p7", "n1", "dev", "own", "t9"⟩ "hd3").attach_calls
      = [⟨"hd3", some "p7"⟩] :=
  C6_ownership_reset_before_attach (fun _ _ _ => Except.ok ())
    (fun _ _ => Except.ok ()) "L3Admin" ⟨"t9", false⟩
    ⟨some "p7", "n1", "dev", "own", "t9"⟩ "hd3" rfl

/-- C7: `teardown_logical_port_connectivity` never raises; a null port record
or a missing port identifier makes it return without invoking the detach
client, and otherwise the detach client is invoked with the supplied hosting
device id and port id (its errors being swallowed). -/
theorem C7_teardown_guard
    (interface_detach : String → String → Except Err Unit) (hd : String)
    (port_db : Option Port) (p q : Port) (pid : String)
    (hp : p.id = some pid) (hq : q.id = none) :
    (teardown_logical_port_connectivity interface_detach port_db hd).raised = none
    ∧ (teardown_logical_port_connectivity interface_detach none hd).detach_calls = []
    ∧ (teardown_logical_port_connectivity interface_detach (some q)
        hd).detach_calls = []
    ∧ (teardown_logical_port_connectivity interface_detach (some p)
        hd).detach_calls = [⟨hd, pid⟩] := by
  refine ⟨?_, rfl, ?_, ?_⟩
  · cases port_db with
    | none => rfl
    | some pp =>
      cases hid : pp.id with
      | none => simp [teardown_logical_port_connectivity, hid]
      | some pid2 =>
        cases hdet : interface_detach hd pid2 with
        | ok u => simp [teardown_logical_port_connectivity, hid, hdet]
        | error e => simp [teardown_logical_port_connectivity, hid, hdet]
  · simp [teardown_logical_port_connectivity, hq]
  · cases hdet : interface_detach hd pid with
    | ok u => simp [teardown_logical_port_connectivity, hp, hdet]
    | error e => simp [teardown_logical_port_connectivity, hp, hdet]

/-- C7 (witness): with a failing detach client, a null record and a record
with a missing id both skip the detach; a proper record detaches with the
supplied ids, and nothing is raised in any case. -/
theorem C7_witness :
    (teardown_logical_port_connectivity
        (fun _ _ => Except.error Err.computeError)
        (some ⟨some "p1", "n1", "", "", "t1"⟩) "hd1").raised = none
    ∧ (teardown_logical_port_connectivity
        (fun _ _ => Except.error Err.computeError) none "hd1").detach_calls = []
    ∧ (teardown_logical_port_connectivity
        (fun _ _ => Except.error Err.computeError)
        (some ⟨none, "n1", "", "", "t1"⟩) "hd1").detach_calls = []
    ∧ (teardown_logical_port_connectivity
        (fun _ _ => Except.error Err.computeError)
        (some ⟨some "p1", "n1", "", "", "t1"⟩) "hd1").detach_calls
      = [⟨"hd1", "p1"⟩] :=
  C7_teardown_guard (fun _ _ => Except.error Err.computeError) "hd1"
    (some ⟨some "p1", "n1", "", "", "t1"⟩) ⟨some "p1", "n1", "", "", "t1"⟩
    ⟨none, "n1", "", "", "t1"⟩ "p1" rfl rfl

/-- C8: an invocation failing with a non-retryable error kind makes the error
propagate immediately — total invocations are only those already made plus
this one, no sleep follows the non-retryable failure, and the error is the
outcome of the whole call. -/
theorem C8_nonretryable_propagates {ε α : Type} (op : Nat → Except ε α)
    (retryable : ε → Bool) (tries delay backoff j : Nat) (e : ε)
    (hj : j < tries)
    (hpre : ∀ n, n < j → ∃ e', op n = Except.error e' ∧ retryable e' = true)
    (hop : op j = Except.error e) (hne : retryable e = false) :
    (retry retryable tries delay backoff op).invocations = j + 1
    ∧ (retry retryable tries delay backoff op).sleeps
        = (List.range j).map (fun i => delay * backoff ^ i)
    ∧ (retry retryable tries delay backoff op).result = Except.error e := by
  cases tries with
  | zero => omega
  | succ t =>
    have h := f_retry_prefix_fail op retryable backoff e hne j t delay 0
      (by omega) (fun n hn => by simpa using hpre n hn) (by simpa using hop)
    unfold retry
    rw [h]
    exact ⟨rfl, rfl, rfl⟩

/-- C8 (witness): two retryable failures then a non-retryable one, with five
attempts allowed — three invocations in total, sleeps only 1 and 2, and the
non-retryable error as outcome. -/
theorem C8_witness :
    (retry (fun e => e == 0) 5 1 2
        (fun k => if k < 2 then Except.error 0
          else (Except.error 1 : Except Nat Unit))).invocations = 3
    ∧ (retry (fun e => e == 0) 5 1 2
        (fun k => if k < 2 then Except.error 0
          else (Except.error 1 : Except Nat Unit))).sleeps = [1, 2]
    ∧ (retry (fun e => e == 0) 5 1 2
        (fun k => if k < 2 then Except.error 0
          else (Except.error 1 : Except Nat Unit))).result = Except.error 1 := by
  obtain ⟨g1, g2, g3⟩ := C8_nonretryable_propagates
    (fun k => if k < 2 then Except.error 0 else (Except.error 1 : Except Nat Unit))
    (fun e => e == 0) 5 1 2 2 1 (by omega)
    (fun n hn => ⟨0, by simp [hn], rfl⟩) (by simp) rfl
  refine ⟨g1, ?_, g3⟩
  rw [g2]
  decide

/-- C9: with no management network identifier (absent context, absent key, or
empty value) or an empty tenant id, `create_hosting_device_resources` returns
the bundle with a null management port and an empty data-port list without
invoking the registry's port creation (and without any cleanup call). -/
theorem C9_noop_guard
    (create_port : PortSpec → Except RegErr Port)
    (delete_port : Nat → Except RegErr Unit)
    (complementary_id tenant_id : String) (mgmt_context : Option MgmtContext)
    (h : Option.bind mgmt_context (fun mc => mc.mgmt_nw_id) = none
      ∨ Option.bind mgmt_context (fun mc => mc.mgmt_nw_id) = some ""
      ∨ tenant_id = "") :
    (create_hosting_device_resources create_port delete_port complementary_id
        tenant_id mgmt_context).create_port_calls = []
    ∧ (create_hosting_device_resources create_port delete_port complementary_id
        tenant_id mgmt_context).cleanup_args = []
    ∧ (create_hosting_device_resources create_port delete_port complementary_id
        tenant_id mgmt_context).bundle.mgmt_port = none
    ∧ (create_hosting_device_resources create_port delete_port complementary_id
        tenant_id mgmt_context).bundle.ports = [] := by
  cases mgmt_context with
  | none => exact ⟨rfl, rfl, rfl, rfl⟩
  | some mc =>
    obtain ⟨onw⟩ := mc
    cases onw with
    | none => exact ⟨rfl, rfl, rfl, rfl⟩
    | some nw =>
      simp only [Option.bind] at h
      rcases h with h | h | h
      · exact absurd h (by simp)
      · have hnw : nw = "" := by
          injection h
        subst hnw
        refine ⟨?_, ?_, ?_, ?_⟩ <;> simp [create_hosting_device_resources]
      · subst h
        refine ⟨?_, ?_, ?_, ?_⟩ <;> simp [create_hosting_device_resources]

/-- C9 (witness): a management context with a missing network id yields the
empty bundle and no registry interaction. -/
theorem C9_witness :
    (create_hosting_device_resources (fun _ => Except.error RegErr.registryError)
        (fun _ => Except.ok ()) "comp1" "t1" (some ⟨none⟩)).create_port_calls = []
    ∧ (create_hosting_device_resources (fun _ => Except.error RegErr.registryError)
        (fun _ => Except.ok ()) "comp1" "t1" (some ⟨none⟩)).cleanup_args = []
    ∧ (create_hosting_device_resources (fun _ => Except.error RegErr.registryError)
        (fun _ => Except.ok ()) "comp1" "t1"
        (some ⟨none⟩)).bundle.mgmt_port = none
    ∧ (create_hosting_device_resources (fun _ => Except.error RegErr.registryError)
        (fun _ => Except.ok ()) "comp1" "t1" (some ⟨none⟩)).bundle.ports = [] :=
  C9_noop_guard (fun _ => Except.error RegErr.registryError)
    (fun _ => Except.ok ()) "comp1" "t1" (some ⟨none⟩) (Or.inl rfl)

/-- C10: on the create-failure rollback path the local port reference is
still unassigned, so the cleanup call always receives null, making it a
guaranteed no-op: zero registry delete invocations, no sleeps, nothing
raised — registry state is untouched by the rollback. -/
theorem C10_rollback_cleanup_noop
    (create_port : PortSpec → Except RegErr Port)
    (delete_port : Nat → Except RegErr Unit)
    (complementary_id tenant_id nw : String) (e : RegErr)
    (hnw : nw ≠ "") (ht : tenant_id ≠ "")
    (hfail : create_port (mgmt_p_spec tenant_id nw complementary_id)
      = Except.error e) :
    (create_hosting_device_resources create_port delete_port complementary_id
        tenant_id (some ⟨some nw⟩)).cleanup_args = [none]
    ∧ (create_hosting_device_resources create_port delete_port complementary_id
        tenant_id (some ⟨some nw⟩)).cleanup_trace.delete_port_calls = 0
    ∧ (create_hosting_device_resources create_port delete_port complementary_id
        tenant_id (some ⟨some nw⟩)).cleanup_trace.sleeps = []
    ∧ (create_hosting_device_resources create_port delete_port complementary_id
        tenant_id (some ⟨some nw⟩)).cleanup_trace.raised = none := by
  have hguard : (nw != "" && tenant_id != "") = true := by
    simp [hnw, ht]
  refine ⟨?_, ?_, ?_, ?_⟩ <;>
    simp [create_hosting_device_resources, hguard, hfail,
      delete_hosting_device_resources]

/-- C10 (witness): concrete failing creation — the cleanup call receives null
and issues no registry delete. -/
theorem C10_witness :
    (create_hosting_device_resources (fun _ => Except.error RegErr.registryError)
        (fun _ => Except.error RegErr.registryError) "comp1" "t1"
        (some ⟨some "mgmt-net"⟩)).cleanup_args = [none]
    ∧ (create_hosting_device_resources (fun _ => Except.error RegErr.registryError)
        (fun _ => Except.error RegErr.registryError) "comp1" "t1"
        (some ⟨some "mgmt-net"⟩)).cleanup_trace.delete_port_calls = 0
    ∧ (create_hosting_device_resources (fun _ => Except.error RegErr.registryError)
        (fun _ => Except.error RegErr.registryError) "comp1" "t1"
        (some ⟨some "mgmt-net"⟩)).cleanup_trace.sleeps = []
    ∧ (create_hosting_device_resources (fun _ => Except.error RegErr.registryError)
        (fun _ => Except.error RegErr.registryError) "comp1" "t1"
        (some ⟨some "mgmt-net"⟩)).cleanup_trace.raised = none :=
  C10_rollback_cleanup_noop (fun _ => Except.error RegErr.registryError)
    (fun _ => Except.error RegErr.registryError) "comp1" "t1" "mgmt-net"
    RegErr.registryError (by decide) (by decide) rfl

end VIFHotPlug
